import Mathlib

/-!
Verification development for the supa-lib service-manager library.

The library wraps a backend identity and table-storage service behind three
collaborator classes (AuthService, UserService, CrudService) and one facade
(ServiceManager). Every public method returns a two-variant Result envelope
instead of raising. We embed the runtime semantics of the TypeScript source:

* JS objects that carry free-form metadata are association lists of
  string-keyed string values, with last-entry-wins lookup (mirroring JS object
  literal and spread semantics);
* JS truthiness on possibly-absent string values: undefined and the empty
  string are falsy, every other string is truthy;
* each backend endpoint is an opaque behavior: it either returns a structured
  response or throws a value (an Error-shaped object or any other value),
  exactly the two cases the try/catch blocks in the source distinguish;
* updateProfile additionally records the trace of backend auth calls it
  performs, so claims about calls not being made are expressible.
-/

namespace SupaLib

/-- Error-with-message shape: the payload every failure Result carries
(mirrors the JS Error objects constructed throughout the source). -/
structure ErrorMsg where
  message : String
deriving Repr, DecidableEq

/-- Result type from src/types/result.ts: tagged union of success-with-data
and failure-with-error. -/
inductive Result (T : Type) where
  | success (data : T)
  | failure (error : ErrorMsg)
deriving Repr, DecidableEq

/-- Constructor createSuccess from src/types/result.ts. -/
def createSuccess {T : Type} (data : T) : Result T :=
  Result.success data

/-- Constructor createFailure from src/types/result.ts. -/
def createFailure {T : Type} (error : ErrorMsg) : Result T :=
  Result.failure error

/-- Type guard isSuccess from src/types/result.ts: the success tag check. -/
def isSuccess {T : Type} : Result T → Bool
  | Result.success _ => true
  | Result.failure _ => false

/-- Type guard isFailure from src/types/result.ts: the failure tag check. -/
def isFailure {T : Type} : Result T → Bool
  | Result.success _ => false
  | Result.failure _ => true

/-- Message exposed by a failure Result, none on a success. -/
def failureMessage {T : Type} : Result T → Option String
  | Result.success _ => none
  | Result.failure e => some e.message

/-- Runtime view of a JS object holding string-valued fields: an association
list; later entries shadow earlier ones, as in object literals and spreads. -/
abbrev Obj := List (String × String)

/-- Property lookup on an Obj: the value of the last entry with the given
key, or none when the key is absent (JS undefined). -/
def objGet (o : Obj) (k : String) : Option String :=
  List.foldl (fun acc kv => if kv.1 = k then some kv.2 else acc) none o

/-- Keys of an Obj, in entry order. -/
def objKeys (o : Obj) : List String :=
  o.map Prod.fst

/-- JS truthiness of a possibly-absent string: undefined and the empty
string are falsy, any other string is truthy. -/
def truthy : Option String → Bool
  | none => false
  | some s => !(s == "")

/-- JS logical-or on possibly-absent strings: the left operand when truthy,
else the right operand (the `a || b` fallback idiom in the mappers). -/
def jsOr (a b : Option String) : Option String :=
  if truthy a then a else b

/-- Raw backend account record: the narrow structural contract the mapping
functions read (id, email, user metadata, confirmation and audit
timestamps). -/
structure RawUser where
  id : String
  email : String
  user_metadata : Option Obj
  email_confirmed_at : Option String
  created_at : String
  updated_at : String
deriving Repr, DecidableEq

/-- Optional-chaining metadata lookup on a raw account record, mirroring
`supabaseUser.user_metadata?.key` in the source. -/
def metaGet (u : RawUser) (k : String) : Option String :=
  match u.user_metadata with
  | none => none
  | some m => objGet m k

/-- Raw backend session record, as read by the session mapper. -/
structure RawSession where
  user : RawUser
  access_token : String
  refresh_token : String
  expires_at : Int
deriving Repr, DecidableEq

/-- User shape from src/types/user.ts. -/
structure User where
  id : String
  email : String
  firstName : Option String
  lastName : Option String
  avatar : Option String
  emailVerified : Bool
  createdAt : String
  updatedAt : String
deriving Repr, DecidableEq

/-- AuthSession shape from src/types/auth.ts. -/
structure AuthSession where
  user : User
  accessToken : String
  refreshToken : String
  expiresAt : Int
deriving Repr, DecidableEq

/-- SignUpResult shape from src/types/auth.ts. -/
structure SignUpResult where
  user : User
  needsVerification : Bool
deriving Repr, DecidableEq

/-- SignInResult shape from src/types/auth.ts. -/
structure SignInResult where
  user : User
  session : AuthSession
deriving Repr, DecidableEq

/-- Value raised by a backend call: either an Error-shaped object or any
other value, the distinction every catch block draws with instanceof. -/
inductive Thrown where
  | errObj (e : ErrorMsg)
  | nonError
deriving Repr, DecidableEq

/-- Outcome of one backend call: a structured response, or a raised value. -/
inductive Outcome (A : Type) where
  | ok (resp : A)
  | thrown (t : Thrown)
deriving Repr, DecidableEq

/-- Catch-clause conversion shared by every method: a raised Error is wrapped
as-is, any other raised value becomes the method's fallback message. -/
def catchToFailure {T : Type} (t : Thrown) (fallbackMessage : String) : Result T :=
  match t with
  | Thrown.errObj e => createFailure e
  | Thrown.nonError => createFailure ⟨fallbackMessage⟩

/-- Response of the backend auth.signUp call, as destructured by the source
(data.user and error). -/
structure SignUpResp where
  user : Option RawUser
  error : Option ErrorMsg
deriving Repr, DecidableEq

/-- Response of the backend auth.signInWithPassword call. -/
structure SignInResp where
  user : Option RawUser
  session : Option RawSession
  error : Option ErrorMsg
deriving Repr, DecidableEq

/-- Response of the backend auth.getUser call. -/
structure GetUserResp where
  user : Option RawUser
  error : Option ErrorMsg
deriving Repr, DecidableEq

/-- Response of the backend auth.getSession call. -/
structure GetSessionResp where
  session : Option RawSession
  error : Option ErrorMsg
deriving Repr, DecidableEq

/-- Response of a backend auth call of which only the error is read
(signOut, resend). -/
structure ErrOnlyResp where
  error : Option ErrorMsg
deriving Repr, DecidableEq

/-- Response of the backend auth.updateUser call. -/
structure UpdateUserResp where
  user : Option RawUser
  error : Option ErrorMsg
deriving Repr, DecidableEq

/-- Backend table-storage error: a message plus an optional code used to
distinguish the row-not-found condition. -/
structure DbError where
  message : String
  code : Option String
deriving Repr, DecidableEq

/-- Response of a single-row table query (insert/select/update with
single()). -/
structure DbSingleResp where
  data : Option Obj
  error : Option DbError
deriving Repr, DecidableEq

/-- Response of a multi-row table select. -/
structure DbListResp where
  data : Option (List Obj)
  error : Option DbError
deriving Repr, DecidableEq

/-- Response of a table delete, of which only the error is read. -/
structure DbErrOnlyResp where
  error : Option DbError
deriving Repr, DecidableEq

/-- Behavior of the backend identity endpoints the AuthService calls; each
field gives the outcome of one call, as a function of the arguments the
source passes to it. -/
structure AuthBehavior where
  signUpR : String → String → Obj → Outcome SignUpResp
  signInR : String → String → Outcome SignInResp
  signOutR : Outcome ErrOnlyResp
  getUserR : Outcome GetUserResp
  getSessionR : Outcome GetSessionResp
  resendR : String → String → Outcome ErrOnlyResp

/-- Behavior of the backend endpoints the UserService calls through the
shared connection handle. -/
structure UserBehavior where
  getUserR : Outcome GetUserResp
  updateUserR : Obj → Outcome UpdateUserResp

/-- Behavior of the backend table-storage endpoints the CrudService calls;
listR receives the equality constraints the query builder accumulated. -/
structure CrudBehavior where
  createR : String → Obj → Outcome DbSingleResp
  readR : String → String → Outcome DbSingleResp
  updateR : String → String → Obj → Outcome DbSingleResp
  deleteR : String → String → Outcome DbErrOnlyResp
  listR : String → List (String × String) → Outcome DbListResp

namespace AuthService

/-- Mapper from a raw backend account record to the User shape
(AuthService.mapSupabaseUserToUser): camel-case metadata key or-else
snake-case fallback for the three profile fields, truthiness of the
confirmation timestamp for emailVerified, verbatim audit timestamps. -/
def mapSupabaseUserToUser (supabaseUser : RawUser) : User :=
  { id := supabaseUser.id
    email := supabaseUser.email
    firstName := jsOr (metaGet supabaseUser "firstName") (metaGet supabaseUser "first_name")
    lastName := jsOr (metaGet supabaseUser "lastName") (metaGet supabaseUser "last_name")
    avatar := jsOr (metaGet supabaseUser "avatar") (metaGet supabaseUser "avatar_url")
    emailVerified := truthy supabaseUser.email_confirmed_at
    createdAt := supabaseUser.created_at
    updatedAt := supabaseUser.updated_at }

/-- Mapper from a raw backend session to AuthSession
(AuthService.mapSupabaseSessionToAuthSession). -/
def mapSupabaseSessionToAuthSession (supabaseSession : RawSession) (user : User) : AuthSession :=
  { user := user
    accessToken := supabaseSession.access_token
    refreshToken := supabaseSession.refresh_token
    expiresAt := supabaseSession.expires_at }

/-- AuthService.signUp: one backend signUp call (profile defaulted to the
empty object), error wrapped, missing user is the defensive failure,
needsVerification is the JS negation of the confirmation timestamp. -/
def signUp (be : AuthBehavior) (email password : String) (profile : Option Obj) :
    Result SignUpResult :=
  match be.signUpR email password (profile.getD []) with
  | Outcome.thrown t => catchToFailure t "Sign up failed"
  | Outcome.ok r =>
    match r.error with
    | some e => createFailure ⟨e.message⟩
    | none =>
      match r.user with
      | none => createFailure ⟨"User creation failed"⟩
      | some u =>
        createSuccess ⟨mapSupabaseUserToUser u, !truthy u.email_confirmed_at⟩

/-- AuthService.signIn: one backend signInWithPassword call; fails when
either the user or the session is absent from an error-free response. -/
def signIn (be : AuthBehavior) (email password : String) : Result SignInResult :=
  match be.signInR email password with
  | Outcome.thrown t => catchToFailure t "Sign in failed"
  | Outcome.ok r =>
    match r.error with
    | some e => createFailure ⟨e.message⟩
    | none =>
      match r.user, r.session with
      | some u, some s =>
        let user := mapSupabaseUserToUser u
        createSuccess ⟨user, mapSupabaseSessionToAuthSession s user⟩
      | _, _ => createFailure ⟨"Sign in failed"⟩

/-- AuthService.signOut: one backend signOut call; error wrapped, otherwise
success with no payload. -/
def signOut (be : AuthBehavior) : Result Unit :=
  match be.signOutR with
  | Outcome.thrown t => catchToFailure t "Sign out failed"
  | Outcome.ok r =>
    match r.error with
    | some e => createFailure ⟨e.message⟩
    | none => createSuccess ()

/-- AuthService.getCurrentUser: backend getUser call; a missing user with no
error is success-with-null, not a failure. -/
def getCurrentUser (be : AuthBehavior) : Result (Option User) :=
  match be.getUserR with
  | Outcome.thrown t => catchToFailure t "Failed to get current user"
  | Outcome.ok r =>
    match r.error with
    | some e => createFailure ⟨e.message⟩
    | none =>
      match r.user with
      | none => createSuccess none
      | some u => createSuccess (some (mapSupabaseUserToUser u))

/-- AuthService.getCurrentSession: backend getSession call; a missing
session with no error is success-with-null. -/
def getCurrentSession (be : AuthBehavior) : Result (Option AuthSession) :=
  match be.getSessionR with
  | Outcome.thrown t => catchToFailure t "Failed to get current session"
  | Outcome.ok r =>
    match r.error with
    | some e => createFailure ⟨e.message⟩
    | none =>
      match r.session with
      | none => createSuccess none
      | some s =>
        let user := mapSupabaseUserToUser s.user
        createSuccess (some (mapSupabaseSessionToAuthSession s user))

/-- AuthService.resendVerificationEmail: destructures only data.user from
the getUser response (any getUser error object is discarded), synthesizes
the no-authenticated-user failure, then issues the resend call scoped to
the current account's email. -/
def resendVerificationEmail (be : AuthBehavior) : Result Unit :=
  match be.getUserR with
  | Outcome.thrown t => catchToFailure t "Failed to resend verification email"
  | Outcome.ok r =>
    match r.user with
    | none => createFailure ⟨"No authenticated user found"⟩
    | some u =>
      match be.resendR "signup" u.email with
      | Outcome.thrown t => catchToFailure t "Failed to resend verification email"
      | Outcome.ok rr =>
        match rr.error with
        | some e => createFailure ⟨e.message⟩
        | none => createSuccess ()

end AuthService

/-- One backend auth call performed by UserService.updateProfile, recorded
in order: the initial getUser read, and the updateUser write together with
the exact metadata payload it sends. -/
inductive ProfCall where
  | getUserC
  | updateUserC (payload : Obj)
deriving Repr, DecidableEq

namespace UserService

/-- Mapper from a raw backend account record to the User shape
(UserService.mapSupabaseUserToUser, textually identical to the
AuthService copy). -/
def mapSupabaseUserToUser (supabaseUser : RawUser) : User :=
  { id := supabaseUser.id
    email := supabaseUser.email
    firstName := jsOr (metaGet supabaseUser "firstName") (metaGet supabaseUser "first_name")
    lastName := jsOr (metaGet supabaseUser "lastName") (metaGet supabaseUser "last_name")
    avatar := jsOr (metaGet supabaseUser "avatar") (metaGet supabaseUser "avatar_url")
    emailVerified := truthy supabaseUser.email_confirmed_at
    createdAt := supabaseUser.created_at
    updatedAt := supabaseUser.updated_at }

/-- UserService.updateProfile: getUser read first (its error propagated,
then the missing-user precondition failure), then the updateUser write
whose payload spreads the update object over the existing metadata
(updates win on key conflict). The second component records the backend
auth calls actually performed. -/
def updateProfile (be : UserBehavior) (updates : Obj) : Result User × List ProfCall :=
  match be.getUserR with
  | Outcome.thrown t => (catchToFailure t "Profile update failed", [ProfCall.getUserC])
  | Outcome.ok r =>
    match r.error with
    | some e => (createFailure ⟨e.message⟩, [ProfCall.getUserC])
    | none =>
      match r.user with
      | none => (createFailure ⟨"No authenticated user found"⟩, [ProfCall.getUserC])
      | some u =>
        let payload := (u.user_metadata.getD []) ++ updates
        match be.updateUserR payload with
        | Outcome.thrown t =>
          (catchToFailure t "Profile update failed",
            [ProfCall.getUserC, ProfCall.updateUserC payload])
        | Outcome.ok ur =>
          match ur.error with
          | some e =>
            (createFailure ⟨e.message⟩, [ProfCall.getUserC, ProfCall.updateUserC payload])
          | none =>
            match ur.user with
            | none =>
              (createFailure ⟨"Profile update failed"⟩,
                [ProfCall.getUserC, ProfCall.updateUserC payload])
            | some nu =>
              (createSuccess (mapSupabaseUserToUser nu),
                [ProfCall.getUserC, ProfCall.updateUserC payload])

/-- UserService.getCurrentUser: same contract and mapping as the
AuthService equivalent, through the shared handle. -/
def getCurrentUser (be : UserBehavior) : Result (Option User) :=
  match be.getUserR with
  | Outcome.thrown t => catchToFailure t "Failed to get current user"
  | Outcome.ok r =>
    match r.error with
    | some e => createFailure ⟨e.message⟩
    | none =>
      match r.user with
      | none => createSuccess none
      | some u => createSuccess (some (mapSupabaseUserToUser u))

end UserService

namespace CrudService

/-- CrudService.create: one insert-select-single round trip; error wrapped,
otherwise the returned row passed through verbatim. -/
def create (be : CrudBehavior) (table : String) (data : Obj) : Result (Option Obj) :=
  match be.createR table data with
  | Outcome.thrown t => catchToFailure t "Create operation failed"
  | Outcome.ok r =>
    match r.error with
    | some e => createFailure ⟨e.message⟩
    | none => createSuccess r.data

/-- CrudService.read: select by exact id; the PGRST116 not-found error code
is normalized to success-with-null, any other error is wrapped. -/
def read (be : CrudBehavior) (table id : String) : Result (Option Obj) :=
  match be.readR table id with
  | Outcome.thrown t => catchToFailure t "Read operation failed"
  | Outcome.ok r =>
    match r.error with
    | some e =>
      if e.code == some "PGRST116" then createSuccess none
      else createFailure ⟨e.message⟩
    | none => createSuccess r.data

/-- CrudService.update: update by exact id then re-select the single row. -/
def update (be : CrudBehavior) (table id : String) (data : Obj) : Result (Option Obj) :=
  match be.updateR table id data with
  | Outcome.thrown t => catchToFailure t "Update operation failed"
  | Outcome.ok r =>
    match r.error with
    | some e => createFailure ⟨e.message⟩
    | none => createSuccess r.data

/-- CrudService.delete: delete by exact id; success carries no payload. -/
def delete (be : CrudBehavior) (table id : String) : Result Unit :=
  match be.deleteR table id with
  | Outcome.thrown t => catchToFailure t "Delete operation failed"
  | Outcome.ok r =>
    match r.error with
    | some e => createFailure ⟨e.message⟩
    | none => createSuccess ()

/-- CrudService.list: builds one equality constraint per filter entry (the
query.eq chain over Object.entries), then runs the select; a null data
payload is normalized to the empty list. -/
def list (be : CrudBehavior) (table : String) (filters : Option Obj) : Result (List Obj) :=
  match be.listR table (filters.getD []) with
  | Outcome.thrown t => catchToFailure t "List operation failed"
  | Outcome.ok r =>
    match r.error with
    | some e => createFailure ⟨e.message⟩
    | none => createSuccess (r.data.getD [])

end CrudService

/-- ServiceManager state: the behaviors of the backends reachable through
the three collaborator instances it constructs. -/
structure ServiceManager where
  authService : AuthBehavior
  userService : UserBehavior
  crudService : CrudBehavior

namespace ServiceManager

/-- ServiceManager.signUp: delegation to AuthService.signUp. -/
def signUp (sm : ServiceManager) (email password : String) (profile : Option Obj) :
    Result SignUpResult :=
  AuthService.signUp sm.authService email password profile

/-- ServiceManager.signIn: delegation to AuthService.signIn. -/
def signIn (sm : ServiceManager) (email password : String) : Result SignInResult :=
  AuthService.signIn sm.authService email password

/-- ServiceManager.signOut: delegation to AuthService.signOut. -/
def signOut (sm : ServiceManager) : Result Unit :=
  AuthService.signOut sm.authService

/-- ServiceManager.resendVerificationEmail: delegation to
AuthService.resendVerificationEmail. -/
def resendVerificationEmail (sm : ServiceManager) : Result Unit :=
  AuthService.resendVerificationEmail sm.authService

/-- ServiceManager.updateProfile: delegation to UserService.updateProfile. -/
def updateProfile (sm : ServiceManager) (updates : Obj) : Result User × List ProfCall :=
  UserService.updateProfile sm.userService updates

/-- ServiceManager.getCurrentUser: delegation to UserService.getCurrentUser
(the profile collaborator, not the authentication one). -/
def getCurrentUser (sm : ServiceManager) : Result (Option User) :=
  UserService.getCurrentUser sm.userService

/-- ServiceManager.getCurrentSession: delegation to
AuthService.getCurrentSession. -/
def getCurrentSession (sm : ServiceManager) : Result (Option AuthSession) :=
  AuthService.getCurrentSession sm.authService

/-- ServiceManager.create: delegation to CrudService.create. -/
def create (sm : ServiceManager) (table : String) (data : Obj) : Result (Option Obj) :=
  CrudService.create sm.crudService table data

/-- ServiceManager.read: delegation to CrudService.read. -/
def read (sm : ServiceManager) (table id : String) : Result (Option Obj) :=
  CrudService.read sm.crudService table id

/-- ServiceManager.update: delegation to CrudService.update. -/
def update (sm : ServiceManager) (table id : String) (data : Obj) : Result (Option Obj) :=
  CrudService.update sm.crudService table id data

/-- ServiceManager.delete: delegation to CrudService.delete. -/
def delete (sm : ServiceManager) (table id : String) : Result Unit :=
  CrudService.delete sm.crudService table id

/-- ServiceManager.list: delegation to CrudService.list. -/
def list (sm : ServiceManager) (table : String) (filters : Option Obj) : Result (List Obj) :=
  CrudService.list sm.crudService table filters

end ServiceManager

/-- Well-formedness of a Result value: it is exactly one of the two
variants, its tag predicates agree with the variant, and in the failure
case the error exposes its message string. -/
def wellFormed {T : Type} (r : Result T) : Prop :=
  (isSuccess r = true ∧ isFailure r = false ∧ ∃ v, r = Result.success v ∧ failureMessage r = none) ∨
  (isSuccess r = false ∧ isFailure r = true ∧ ∃ e, r = Result.failure e ∧ failureMessage r = some e.message)

/-- Every Result value of the embedding is exactly one variant with
consistent tags, and every failure exposes a message string. -/
theorem result_wellFormed {T : Type} (r : Result T) : wellFormed r := by
  cases r with
  | success v =>
    exact Or.inl ⟨rfl, rfl, v, rfl, rfl⟩
  | failure e =>
    exact Or.inr ⟨rfl, rfl, e, rfl, rfl⟩

/-- C1: for every public method of the facade and of the three
collaborators, for every input and every backend behavior (including a
raised exception from any backend call), the method returns a Result that
is exactly one of the two variants, with consistent tag predicates, and
every failure exposes a message string. -/
theorem c1_all_methods_return_result_envelope :
    (∀ (be : AuthBehavior) (email password : String) (profile : Option Obj),
      wellFormed (AuthService.signUp be email password profile)) ∧
    (∀ (be : AuthBehavior) (email password : String),
      wellFormed (AuthService.signIn be email password)) ∧
    (∀ be : AuthBehavior, wellFormed (AuthService.signOut be)) ∧
    (∀ be : AuthBehavior, wellFormed (AuthService.getCurrentUser be)) ∧
    (∀ be : AuthBehavior, wellFormed (AuthService.getCurrentSession be)) ∧
    (∀ be : AuthBehavior, wellFormed (AuthService.resendVerificationEmail be)) ∧
    (∀ (be : UserBehavior) (updates : Obj),
      wellFormed (UserService.updateProfile be updates).1) ∧
    (∀ be : UserBehavior, wellFormed (UserService.getCurrentUser be)) ∧
    (∀ (be : CrudBehavior) (table : String) (data : Obj),
      wellFormed (CrudService.create be table data)) ∧
    (∀ (be : CrudBehavior) (table id : String),
      wellFormed (CrudService.read be table id)) ∧
    (∀ (be : CrudBehavior) (table id : String) (data : Obj),
      wellFormed (CrudService.update be table id data)) ∧
    (∀ (be : CrudBehavior) (table id : String),
      wellFormed (CrudService.delete be table id)) ∧
    (∀ (be : CrudBehavior) (table : String) (filters : Option Obj),
      wellFormed (CrudService.list be table filters)) ∧
    (∀ (sm : ServiceManager) (email password : String) (profile : Option Obj),
      wellFormed (ServiceManager.signUp sm email password profile)) ∧
    (∀ (sm : ServiceManager) (email password : String),
      wellFormed (ServiceManager.signIn sm email password)) ∧
    (∀ sm : ServiceManager, wellFormed (ServiceManager.signOut sm)) ∧
    (∀ sm : ServiceManager, wellFormed (ServiceManager.resendVerificationEmail sm)) ∧
    (∀ (sm : ServiceManager) (updates : Obj),
      wellFormed (ServiceManager.updateProfile sm updates).1) ∧
    (∀ sm : ServiceManager, wellFormed (ServiceManager.getCurrentUser sm)) ∧
    (∀ sm : ServiceManager, wellFormed (ServiceManager.getCurrentSession sm)) ∧
    (∀ (sm : ServiceManager) (table : String) (data : Obj),
      wellFormed (ServiceManager.create sm table data)) ∧
    (∀ (sm : ServiceManager) (table id : String),
      wellFormed (ServiceManager.read sm table id)) ∧
    (∀ (sm : ServiceManager) (table id : String) (data : Obj),
      wellFormed (ServiceManager.update sm table id data)) ∧
    (∀ (sm : ServiceManager) (table id : String),
      wellFormed (ServiceManager.delete sm table id)) ∧
    (∀ (sm : ServiceManager) (table : String) (filters : Option Obj),
      wellFormed (ServiceManager.list sm table filters)) :=
  ⟨fun _ _ _ _ => result_wellFormed _,
   fun _ _ _ => result_wellFormed _,
   fun _ => result_wellFormed _,
   fun _ => result_wellFormed _,
   fun _ => result_wellFormed _,
   fun _ => result_wellFormed _,
   fun _ _ => result_wellFormed _,
   fun _ => result_wellFormed _,
   fun _ _ _ => result_wellFormed _,
   fun _ _ _ => result_wellFormed _,
   fun _ _ _ _ => result_wellFormed _,
   fun _ _ _ => result_wellFormed _,
   fun _ _ _ => result_wellFormed _,
   fun _ _ _ _ => result_wellFormed _,
   fun _ _ _ => result_wellFormed _,
   fun _ => result_wellFormed _,
   fun _ => result_wellFormed _,
   fun _ _ => result_wellFormed _,
   fun _ => result_wellFormed _,
   fun _ => result_wellFormed _,
   fun _ _ _ => result_wellFormed _,
   fun _ _ _ => result_wellFormed _,
   fun _ _ _ _ => result_wellFormed _,
   fun _ _ _ => result_wellFormed _,
   fun _ _ _ => result_wellFormed _⟩

/-- C8: every public method of the facade equals the single matching
collaborator method applied to the same arguments, with no added logic:
the five authentication methods go to the authentication collaborator,
updateProfile and getCurrentUser to the profile collaborator, and the
five CRUD methods to the record collaborator. -/
theorem c8_facade_delegates :
    ∀ (sm : ServiceManager) (email password table id : String)
      (profile filters : Option Obj) (updates data : Obj),
      ServiceManager.signUp sm email password profile =
        AuthService.signUp sm.authService email password profile ∧
      ServiceManager.signIn sm email password =
        AuthService.signIn sm.authService email password ∧
      ServiceManager.signOut sm = AuthService.signOut sm.authService ∧
      ServiceManager.resendVerificationEmail sm =
        AuthService.resendVerificationEmail sm.authService ∧
      ServiceManager.getCurrentSession sm =
        AuthService.getCurrentSession sm.authService ∧
      ServiceManager.updateProfile sm updates =
        UserService.updateProfile sm.userService updates ∧
      ServiceManager.getCurrentUser sm =
        UserService.getCurrentUser sm.userService ∧
      ServiceManager.create sm table data =
        CrudService.create sm.crudService table data ∧
      ServiceManager.read sm table id =
        CrudService.read sm.crudService table id ∧
      ServiceManager.update sm table id data =
        CrudService.update sm.crudService table id data ∧
      ServiceManager.delete sm table id =
        CrudService.delete sm.crudService table id ∧
      ServiceManager.list sm table filters =
        CrudService.list sm.crudService table filters :=
  fun _ _ _ _ _ _ _ _ _ =>
    ⟨rfl, rfl, rfl, rfl, rfl, rfl, rfl, rfl, rfl, rfl, rfl, rfl⟩

/-- C4: when the backend reports its specific row-not-found error code
(PGRST116), read returns success with null; for any other backend-reported
error, read returns a failure wrapping that error's message. -/
theorem c4_read_not_found_null :
    ∀ (be : CrudBehavior) (table id : String) (r : DbSingleResp) (e : DbError),
      be.readR table id = Outcome.ok r →
      r.error = some e →
      (e.code = some "PGRST116" → CrudService.read be table id = createSuccess none) ∧
      (e.code ≠ some "PGRST116" →
        CrudService.read be table id = createFailure ⟨e.message⟩) := by
  intro be table id r e h1 h2
  constructor
  · intro hc
    simp [CrudService.read, h1, h2, hc]
  · intro hc
    simp [CrudService.read, h1, h2, hc]

/-- Witness for C4: a concrete behavior whose read query reports the
PGRST116 not-found code yields success-with-null, and one reporting a
distinct error code yields the wrapped failure. -/
theorem c4_read_not_found_null_witness :
    CrudService.read
      ⟨fun _ _ => Outcome.ok ⟨none, none⟩,
       fun _ _ => Outcome.ok ⟨none, some ⟨"row missing", some "PGRST116"⟩⟩,
       fun _ _ _ => Outcome.ok ⟨none, none⟩,
       fun _ _ => Outcome.ok ⟨none⟩,
       fun _ _ => Outcome.ok ⟨none, none⟩⟩ "social_links" "42" = createSuccess none ∧
    CrudService.read
      ⟨fun _ _ => Outcome.ok ⟨none, none⟩,
       fun _ _ => Outcome.ok ⟨none, some ⟨"permission denied", some "42501"⟩⟩,
       fun _ _ _ => Outcome.ok ⟨none, none⟩,
       fun _ _ => Outcome.ok ⟨none⟩,
       fun _ _ => Outcome.ok ⟨none, none⟩⟩ "social_links" "42" =
      createFailure ⟨"permission denied"⟩ :=
  ⟨(c4_read_not_found_null _ "social_links" "42" ⟨none, some ⟨"row missing", some "PGRST116"⟩⟩
      ⟨"row missing", some "PGRST116"⟩ rfl rfl).1 rfl,
   (c4_read_not_found_null _ "social_links" "42" ⟨none, some ⟨"permission denied", some "42501"⟩⟩
      ⟨"permission denied", some "42501"⟩ rfl rfl).2 (by decide)⟩

/-- Modelled from the spec: the backend table-storage service is an
external collaborator, not code of this repository; per the spec's
backend-boundary contract its select applies the accumulated equality
constraints as exact matches, so a select over a stored table returns
exactly the rows whose value at every constrained key equals the
constraint's value. Only the list endpoint carries table content here. -/
def tableSelectBehavior (tbl : List Obj) : CrudBehavior :=
  ⟨fun _ _ => Outcome.ok ⟨none, none⟩,
   fun _ _ => Outcome.ok ⟨none, none⟩,
   fun _ _ _ => Outcome.ok ⟨none, none⟩,
   fun _ _ => Outcome.ok ⟨none⟩,
   fun _ cs =>
     Outcome.ok
       ⟨some (tbl.filter (fun row => cs.all (fun c => objGet row c.1 == some c.2))), none⟩⟩

/-- C7: list applies every key-value pair of the filters mapping as an
exact-match equality constraint, conjunctively: against a backend table,
a row is in the returned sequence if and only if it is a row of the table
matching all filters, so a row matching only some filters is excluded. -/
theorem c7_list_filters_conjunctive :
    ∀ (tbl : List Obj) (table : String) (filters : Obj),
      CrudService.list (tableSelectBehavior tbl) table (some filters) =
        createSuccess
          (tbl.filter (fun row => filters.all (fun c => objGet row c.1 == some c.2))) ∧
      ∀ row : Obj,
        row ∈ tbl.filter (fun row => filters.all (fun c => objGet row c.1 == some c.2)) ↔
          row ∈ tbl ∧ ∀ c ∈ filters, objGet row c.1 = some c.2 := by
  intro tbl table filters
  constructor
  · rfl
  · intro row
    simp [List.mem_filter, List.all_eq_true]

/-- C9: when the get-user step itself reports an error and returns no
user, resendVerificationEmail discards the error object and fails with the
synthesized message, while updateProfile on the same get-user response
propagates the get-user error message before checking for a missing user. -/
theorem c9_resend_discards_get_user_error :
    ∀ (abe : AuthBehavior) (ube : UserBehavior) (updates : Obj) (e : ErrorMsg),
      abe.getUserR = Outcome.ok ⟨none, some e⟩ →
      ube.getUserR = Outcome.ok ⟨none, some e⟩ →
      AuthService.resendVerificationEmail abe =
        createFailure ⟨"No authenticated user found"⟩ ∧
      (UserService.updateProfile ube updates).1 = createFailure ⟨e.message⟩ := by
  intro abe ube updates e h1 h2
  constructor
  · simp [AuthService.resendVerificationEmail, h1]
  · simp [UserService.updateProfile, h2]

/-- Witness for C9: a concrete get-user response carrying an error and no
user; the resend path synthesizes its own message, the profile path
relays the error message. -/
theorem c9_resend_discards_get_user_error_witness :
    AuthService.resendVerificationEmail
      ⟨fun _ _ _ => Outcome.ok ⟨none, none⟩,
       fun _ _ => Outcome.ok ⟨none, none, none⟩,
       Outcome.ok ⟨none⟩,
       Outcome.ok ⟨none, some ⟨"Auth session missing!"⟩⟩,
       Outcome.ok ⟨none, none⟩,
       fun _ _ => Outcome.ok ⟨none⟩⟩ =
      createFailure ⟨"No authenticated user found"⟩ ∧
    (UserService.updateProfile
      ⟨Outcome.ok ⟨none, some ⟨"Auth session missing!"⟩⟩,
       fun _ => Outcome.ok ⟨none, none⟩⟩ [("firstName", "X")]).1 =
      createFailure ⟨"Auth session missing!"⟩ :=
  c9_resend_discards_get_user_error
    ⟨fun _ _ _ => Outcome.ok ⟨none, none⟩,
     fun _ _ => Outcome.ok ⟨none, none, none⟩,
     Outcome.ok ⟨none⟩,
     Outcome.ok ⟨none, some ⟨"Auth session missing!"⟩⟩,
     Outcome.ok ⟨none, none⟩,
     fun _ _ => Outcome.ok ⟨none⟩⟩
    ⟨Outcome.ok ⟨none, some ⟨"Auth session missing!"⟩⟩,
     fun _ => Outcome.ok ⟨none, none⟩⟩
    [("firstName", "X")] ⟨"Auth session missing!"⟩ rfl rfl

/-- C10: the camel-case preference in the user-shape mapping is decided by
truthiness, not key presence: when the camel-case key holds the falsy
empty string and the snake-case key holds a non-empty value, both
services map the field to the snake-case value. -/
theorem c10_falsy_camel_takes_snake :
    ∀ (u : RawUser) (s : String),
      s ≠ "" →
      (metaGet u "firstName" = some "" → metaGet u "first_name" = some s →
        (AuthService.mapSupabaseUserToUser u).firstName = some s ∧
        (UserService.mapSupabaseUserToUser u).firstName = some s) ∧
      (metaGet u "lastName" = some "" → metaGet u "last_name" = some s →
        (AuthService.mapSupabaseUserToUser u).lastName = some s ∧
        (UserService.mapSupabaseUserToUser u).lastName = some s) ∧
      (metaGet u "avatar" = some "" → metaGet u "avatar_url" = some s →
        (AuthService.mapSupabaseUserToUser u).avatar = some s ∧
        (UserService.mapSupabaseUserToUser u).avatar = some s) := by
  intro u s hs
  refine ⟨?_, ?_, ?_⟩ <;>
    intro h1 h2 <;>
    exact ⟨by simp [AuthService.mapSupabaseUserToUser, jsOr, truthy, h1, h2],
           by simp [UserService.mapSupabaseUserToUser, jsOr, truthy, h1, h2]⟩

/-- Sample raw account record whose metadata sets every camel-case profile
key to the empty string and every snake-case key to a non-empty value. -/
def emptyCamelRawUser : RawUser :=
  ⟨"u-10", "ten@example.com",
   some [("firstName", ""), ("first_name", "Bob"),
         ("lastName", ""), ("last_name", "Doe"),
         ("avatar", ""), ("avatar_url", "https://img.example/a.png")],
   none, "2024-01-01", "2024-01-02"⟩

/-- Witness for C10: on the sample record the mapped firstName is the
snake-case value. -/
theorem c10_falsy_camel_takes_snake_witness :
    (AuthService.mapSupabaseUserToUser emptyCamelRawUser).firstName = some "Bob" ∧
    (UserService.mapSupabaseUserToUser emptyCamelRawUser).firstName = some "Bob" :=
  (c10_falsy_camel_takes_snake emptyCamelRawUser "Bob" (by decide)).1 (by decide) (by decide)

/-- The three profile keys the ProfileUpdate payload type admits. -/
def allowedProfileKeys : List String :=
  ["firstName", "lastName", "avatar"]

/-- Sample authenticated account whose metadata holds one key outside the
profile key set. -/
def roleRawUser : RawUser :=
  ⟨"u-2", "two@example.com", some [("role", "user")], none, "2024-01-01", "2024-01-02"⟩

/-- Sample profile-collaborator backend behavior: an authenticated account
is current and the metadata write succeeds, echoing the account back. -/
def roleUserBehavior : UserBehavior :=
  ⟨Outcome.ok ⟨some roleRawUser, none⟩, fun _ => Outcome.ok ⟨some roleRawUser, none⟩⟩

/-- Counterexample for C2: an update payload carrying the extra key
"hacked" leads to a metadata write whose payload stores that key's value
verbatim, so an extra key is not rejected at runtime. -/
theorem c2_extra_key_stored_cex :
    (UserService.updateProfile roleUserBehavior [("hacked", "1")]).2 =
      [ProfCall.getUserC, ProfCall.updateUserC [("role", "user"), ("hacked", "1")]] ∧
    objGet [("role", "user"), ("hacked", "1")] "hacked" = some "1" ∧
    ("hacked" ∈ allowedProfileKeys) = False := by
  refine ⟨rfl, rfl, ?_⟩
  simp [allowedProfileKeys]

/-- C2 as amended: updateProfile performs no runtime key filtering — the
metadata payload written is exactly the current metadata with the update
object spread over it — so the restriction to the three profile keys holds
only for payloads that themselves stay within that key set: then every
written key comes from the existing metadata or the allowed set. -/
theorem c2_runtime_merge_verbatim :
    ∀ (be : UserBehavior) (updates : Obj) (u : RawUser),
      be.getUserR = Outcome.ok ⟨some u, none⟩ →
      (UserService.updateProfile be updates).2 =
        [ProfCall.getUserC, ProfCall.updateUserC ((u.user_metadata.getD []) ++ updates)] ∧
      ((∀ k ∈ objKeys updates, k ∈ allowedProfileKeys) →
        ∀ k ∈ objKeys ((u.user_metadata.getD []) ++ updates),
          k ∈ objKeys (u.user_metadata.getD []) ∨ k ∈ allowedProfileKeys) := by
  intro be updates u h
  constructor
  · cases hu : be.updateUserR ((u.user_metadata.getD []) ++ updates) with
    | thrown t => simp [UserService.updateProfile, h, hu]
    | ok ur =>
      cases he : ur.error with
      | some e => simp [UserService.updateProfile, h, hu, he]
      | none =>
        cases hv : ur.user with
        | none => simp [UserService.updateProfile, h, hu, he, hv]
        | some nu => simp [UserService.updateProfile, h, hu, he, hv]
  · intro hallowed k hk
    simp only [objKeys, List.map_append, List.mem_append] at hk
    cases hk with
    | inl hold => exact Or.inl hold
    | inr hnew => exact Or.inr (hallowed k hnew)

/-- Witness for C2 as amended: a payload within the allowed key set merges
over existing metadata, with the write recorded and the existing "theme"
key accounted for. -/
theorem c2_runtime_merge_verbatim_witness :
    (UserService.updateProfile
      ⟨Outcome.ok ⟨some ⟨"u-2b", "b@example.com", some [("theme", "dark")], none, "c", "d"⟩, none⟩,
       fun _ => Outcome.ok ⟨none, none⟩⟩ [("firstName", "X")]).2 =
      [ProfCall.getUserC, ProfCall.updateUserC [("theme", "dark"), ("firstName", "X")]] ∧
    ("theme" ∈ objKeys [("theme", "dark")] ∨ "theme" ∈ allowedProfileKeys) :=
  ⟨(c2_runtime_merge_verbatim
      ⟨Outcome.ok ⟨some ⟨"u-2b", "b@example.com", some [("theme", "dark")], none, "c", "d"⟩, none⟩,
       fun _ => Outcome.ok ⟨none, none⟩⟩ [("firstName", "X")]
      ⟨"u-2b", "b@example.com", some [("theme", "dark")], none, "c", "d"⟩ rfl).1,
   (c2_runtime_merge_verbatim
      ⟨Outcome.ok ⟨some ⟨"u-2b", "b@example.com", some [("theme", "dark")], none, "c", "d"⟩, none⟩,
       fun _ => Outcome.ok ⟨none, none⟩⟩ [("firstName", "X")]
      ⟨"u-2b", "b@example.com", some [("theme", "dark")], none, "c", "d"⟩ rfl).2
     (by decide) "theme" (by decide)⟩

/-- Sample profile-collaborator backend behavior whose get-user step
reports an error and yields no user. -/
def getUserErrorBehavior : UserBehavior :=
  ⟨Outcome.ok ⟨none, some ⟨"boom"⟩⟩, fun _ => Outcome.ok ⟨none, none⟩⟩

/-- Counterexample for C3: a get-user response yielding no user but
carrying an error makes updateProfile fail with that error's message, not
with the synthesized no-authenticated-user message. -/
theorem c3_get_user_error_message_cex :
    getUserErrorBehavior.getUserR = Outcome.ok ⟨none, some ⟨"boom"⟩⟩ ∧
    (UserService.updateProfile getUserErrorBehavior [("firstName", "X")]).1 =
      createFailure ⟨"boom"⟩ ∧
    ((createFailure ⟨"boom"⟩ : Result User) =
        createFailure ⟨"No authenticated user found"⟩) = False := by
  refine ⟨rfl, rfl, ?_⟩
  simp [createFailure]

/-- C3 as amended: when the get-user call reports no error and yields no
user, updateProfile fails with exactly "No authenticated user found" and
performs no metadata write call (the get-user read is the only backend
call made). -/
theorem c3_no_user_no_error_fails_without_write :
    ∀ (be : UserBehavior) (updates : Obj),
      be.getUserR = Outcome.ok ⟨none, none⟩ →
      (UserService.updateProfile be updates).1 =
        createFailure ⟨"No authenticated user found"⟩ ∧
      (UserService.updateProfile be updates).2 = [ProfCall.getUserC] ∧
      ∀ p : Obj, ProfCall.updateUserC p ∉ (UserService.updateProfile be updates).2 := by
  intro be updates h
  refine ⟨?_, ?_, ?_⟩
  · simp [UserService.updateProfile, h]
  · simp [UserService.updateProfile, h]
  · intro p
    simp [UserService.updateProfile, h]

/-- Witness for C3 as amended: a concrete error-free empty get-user
response produces the synthesized failure and a trace holding only the
read. -/
theorem c3_no_user_no_error_fails_without_write_witness :
    (UserService.updateProfile
      ⟨Outcome.ok ⟨none, none⟩, fun _ => Outcome.ok ⟨none, none⟩⟩ [("firstName", "X")]).1 =
      createFailure ⟨"No authenticated user found"⟩ ∧
    (UserService.updateProfile
      ⟨Outcome.ok ⟨none, none⟩, fun _ => Outcome.ok ⟨none, none⟩⟩ [("firstName", "X")]).2 =
      [ProfCall.getUserC] :=
  ⟨(c3_no_user_no_error_fails_without_write
      ⟨Outcome.ok ⟨none, none⟩, fun _ => Outcome.ok ⟨none, none⟩⟩ [("firstName", "X")] rfl).1,
   (c3_no_user_no_error_fails_without_write
      ⟨Outcome.ok ⟨none, none⟩, fun _ => Outcome.ok ⟨none, none⟩⟩ [("firstName", "X")] rfl).2.1⟩

/-- Sample raw account whose confirmation timestamp is present but equal to
the empty string. -/
def emptyTimestampRawUser : RawUser :=
  ⟨"u-5", "five@example.com", none, some "", "2024-01-01", "2024-01-02"⟩

/-- Sample authentication backend behavior whose sign-up call returns the
empty-timestamp account with no error. -/
def emptyTimestampAuthBehavior : AuthBehavior :=
  ⟨fun _ _ _ => Outcome.ok ⟨some emptyTimestampRawUser, none⟩,
   fun _ _ => Outcome.ok ⟨none, none, none⟩,
   Outcome.ok ⟨none⟩,
   Outcome.ok ⟨none, none⟩,
   Outcome.ok ⟨none, none⟩,
   fun _ _ => Outcome.ok ⟨none⟩⟩

/-- Counterexample for C5: a successful sign-up whose returned account
carries a present (some-valued) confirmation timestamp still yields
needsVerification true, because the timestamp is the falsy empty string. -/
theorem c5_empty_timestamp_cex :
    emptyTimestampRawUser.email_confirmed_at.isSome = true ∧
    AuthService.signUp emptyTimestampAuthBehavior "five@example.com" "pw" none =
      createSuccess ⟨AuthService.mapSupabaseUserToUser emptyTimestampRawUser, true⟩ := by
  exact ⟨rfl, rfl⟩

/-- C5 as amended: for every successful sign-up, needsVerification is the
JS-truthiness negation of the confirmation timestamp: true exactly when
the timestamp is absent or the empty string, false for any non-empty
timestamp. -/
theorem c5_needs_verification_truthiness :
    ∀ (be : AuthBehavior) (email password : String) (profile : Option Obj) (u : RawUser),
      be.signUpR email password (profile.getD []) = Outcome.ok ⟨some u, none⟩ →
      AuthService.signUp be email password profile =
        createSuccess ⟨AuthService.mapSupabaseUserToUser u, !truthy u.email_confirmed_at⟩ ∧
      ((!truthy u.email_confirmed_at) = true ↔
        (u.email_confirmed_at = none ∨ u.email_confirmed_at = some "")) := by
  intro be email password profile u h
  constructor
  · simp [AuthService.signUp, h]
  · cases hc : u.email_confirmed_at with
    | none => simp [truthy]
    | some s => simp [truthy]

/-- Witness for C5 as amended: the empty-timestamp behavior satisfies the
hypothesis, gives needsVerification true, and the truthiness
characterization holds there. -/
theorem c5_needs_verification_truthiness_witness :
    AuthService.signUp emptyTimestampAuthBehavior "five@example.com" "pw" none =
      createSuccess
        ⟨AuthService.mapSupabaseUserToUser emptyTimestampRawUser,
         !truthy emptyTimestampRawUser.email_confirmed_at⟩ ∧
    ((!truthy emptyTimestampRawUser.email_confirmed_at) = true ↔
      (emptyTimestampRawUser.email_confirmed_at = none ∨
        emptyTimestampRawUser.email_confirmed_at = some "")) :=
  c5_needs_verification_truthiness emptyTimestampAuthBehavior "five@example.com" "pw" none
    emptyTimestampRawUser rfl

/-- Counterexample for C6: a record whose metadata sets the camel-case
firstName key (to the empty string) is not mapped from that key — the
mapped field is the snake-case value instead, so the mapping does not
populate from the camel-case key whenever it is set. -/
theorem c6_empty_camel_key_cex :
    metaGet emptyCamelRawUser "firstName" = some "" ∧
    (AuthService.mapSupabaseUserToUser emptyCamelRawUser).firstName = some "Bob" ∧
    (UserService.mapSupabaseUserToUser emptyCamelRawUser).firstName = some "Bob" ∧
    ((AuthService.mapSupabaseUserToUser emptyCamelRawUser).firstName =
        metaGet emptyCamelRawUser "firstName") = False := by
  refine ⟨by decide, by decide, by decide, ?_⟩
  simp [AuthService.mapSupabaseUserToUser, emptyCamelRawUser, metaGet, objGet, jsOr, truthy]

/-- C6 as amended: each profile field is populated from the camel-case
metadata key when that key is truthy (set and non-empty), and falls back
to the snake-case key when the camel-case key is absent or empty, in both
services; in particular a record with user_metadata.avatar_url set and no
avatar key maps to a User whose avatar equals the avatar_url value. -/
theorem c6_mapping_truthy_camel_else_snake :
    ∀ u : RawUser,
      (truthy (metaGet u "firstName") = true →
        (AuthService.mapSupabaseUserToUser u).firstName = metaGet u "firstName" ∧
        (UserService.mapSupabaseUserToUser u).firstName = metaGet u "firstName") ∧
      (truthy (metaGet u "firstName") = false →
        (AuthService.mapSupabaseUserToUser u).firstName = metaGet u "first_name" ∧
        (UserService.mapSupabaseUserToUser u).firstName = metaGet u "first_name") ∧
      (truthy (metaGet u "lastName") = true →
        (AuthService.mapSupabaseUserToUser u).lastName = metaGet u "lastName" ∧
        (UserService.mapSupabaseUserToUser u).lastName = metaGet u "lastName") ∧
      (truthy (metaGet u "lastName") = false →
        (AuthService.mapSupabaseUserToUser u).lastName = metaGet u "last_name" ∧
        (UserService.mapSupabaseUserToUser u).lastName = metaGet u "last_name") ∧
      (truthy (metaGet u "avatar") = true →
        (AuthService.mapSupabaseUserToUser u).avatar = metaGet u "avatar" ∧
        (UserService.mapSupabaseUserToUser u).avatar = metaGet u "avatar") ∧
      (truthy (metaGet u "avatar") = false →
        (AuthService.mapSupabaseUserToUser u).avatar = metaGet u "avatar_url" ∧
        (UserService.mapSupabaseUserToUser u).avatar = metaGet u "avatar_url") ∧
      (metaGet u "avatar" = none →
        (AuthService.mapSupabaseUserToUser u).avatar = metaGet u "avatar_url" ∧
        (UserService.mapSupabaseUserToUser u).avatar = metaGet u "avatar_url") := by
  intro u
  have tn : truthy none = false := rfl
  refine ⟨?_, ?_, ?_, ?_, ?_, ?_, ?_⟩ <;> intro h <;>
    exact ⟨by simp [AuthService.mapSupabaseUserToUser, jsOr, h, tn],
           by simp [UserService.mapSupabaseUserToUser, jsOr, h, tn]⟩

/-- Sample raw account with user_metadata.avatar_url set and no avatar
key. -/
def avatarUrlRawUser : RawUser :=
  ⟨"u-6", "six@example.com",
   some [("avatar_url", "https://img.example/p.png")],
   none, "2024-01-01", "2024-01-02"⟩

/-- Witness for C6 as amended: on a record with avatar_url set and no
avatar key, both mapped avatars equal the avatar_url value. -/
theorem c6_mapping_truthy_camel_else_snake_witness :
    (AuthService.mapSupabaseUserToUser avatarUrlRawUser).avatar =
      metaGet avatarUrlRawUser "avatar_url" ∧
    (UserService.mapSupabaseUserToUser avatarUrlRawUser).avatar =
      metaGet avatarUrlRawUser "avatar_url" :=
  (c6_mapping_truthy_camel_else_snake avatarUrlRawUser).2.2.2.2.2.2 (by decide)

end SupaLib
